import Mathlib

/-!
Shallow embedding of the user-management module of the NCLEX-RN prep
repository (src/github-upload/js/user-management.js).

Modelling conventions, used throughout:
* Timestamps are epoch milliseconds (the value of a JS Date); the code stores
  ISO-8601 strings, which are in order-preserving bijection with these values,
  so they are modelled as Nat.
* JS strings are Lean Strings; the ASCII character classes of the source
  regexes coincide with Lean's ASCII Char.isLower, Char.isUpper, Char.isDigit,
  Char.isAlpha, Char.isAlphanum.
* The IndexedDB object stores are keyed collections; they are modelled as
  lists in which a put replaces any record with the same key and lookups are
  by key, matching observable IndexedDB behaviour.
-/

namespace NclexUserMgmt

set_option maxRecDepth 100000

/-! ### SHA-256, a model of crypto.subtle.digest('SHA-256', bytes)

hashPassword in the source UTF-8-encodes password + 'NCLEX_SALT_2024',
digests it with the platform's SHA-256 and hex-encodes the 32-byte result.
The digest itself is a platform primitive, so it is embedded as the standard
SHA-256 algorithm over byte lists (bytes are Nat values below 256, words are
Nat values below 2^32 kept reduced with an explicit mod). -/

/-- Reduce a Nat to a 32-bit word. -/
def w32 (n : Nat) : Nat := n % 4294967296

/-- Right rotation of a 32-bit word by n bits. -/
def rotr32 (n x : Nat) : Nat := w32 ((x >>> n) ||| (x <<< (32 - n)))

/-- Bitwise complement of a 32-bit word. -/
def not32 (x : Nat) : Nat := x ^^^ 4294967295

/-- The SHA-256 round constants, as decimal values. -/
def sha256K : List Nat :=
  [1116352408, 1899447441, 3049323471, 3921009573,
   961987163, 1508970993, 2453635748, 2870763221,
   3624381080, 310598401, 607225278, 1426881987,
   1925078388, 2162078206, 2614888103, 3248222580,
   3835390401, 4022224774, 264347078, 604807628,
   770255983, 1249150122, 1555081692, 1996064986,
   2554220882, 2821834349, 2952996808, 3210313671,
   3336571891, 3584528711, 113926993, 338241895,
   666307205, 773529912, 1294757372, 1396182291,
   1695183700, 1986661051, 2177026350, 2456956037,
   2730485921, 2820302411, 3259730800, 3345764771,
   3516065817, 3600352804, 4094571909, 275423344,
   430227734, 506948616, 659060556, 883997877,
   958139571, 1322822218, 1537002063, 1747873779,
   1955562222, 2024104815, 2227730452, 2361852424,
   2428436474, 2756734187, 3204031479, 3329325298]

/-- The eight 32-bit words of a SHA-256 chaining state. -/
structure Hash8 where
  h0 : Nat
  h1 : Nat
  h2 : Nat
  h3 : Nat
  h4 : Nat
  h5 : Nat
  h6 : Nat
  h7 : Nat
deriving DecidableEq, Repr

/-- The SHA-256 initial hash value, as decimal values. -/
def sha256H0 : Hash8 :=
  ⟨1779033703, 3144134277, 1013904242, 2773480762,
   1359893119, 2600822924, 528734635, 1541459225⟩

/-- SHA-256 padding: append 0x80, zero bytes to 56 mod 64, then the bit length big-endian. -/
def padMessage (msg : List Nat) : List Nat :=
  let len := msg.length
  let bitLen := 8 * len
  let zeros := (56 + 64 - (len + 1) % 64) % 64
  msg ++ [0x80] ++ List.replicate zeros 0 ++
    [bitLen / 72057594037927936 % 256, bitLen / 281474976710656 % 256,
     bitLen / 1099511627776 % 256, bitLen / 4294967296 % 256,
     bitLen / 16777216 % 256, bitLen / 65536 % 256, bitLen / 256 % 256, bitLen % 256]

/-- Split a byte list into 64-byte chunks; the fuel argument makes the
recursion structural and is always called with the list length, which bounds
the number of chunks. -/
def chunks64Aux : Nat → List Nat → List (List Nat)
  | 0, _ => []
  | _, [] => []
  | fuel + 1, a :: rest => ((a :: rest).take 64) :: chunks64Aux fuel ((a :: rest).drop 64)

/-- Split a byte list into 64-byte chunks. -/
def chunks64 (l : List Nat) : List (List Nat) := chunks64Aux l.length l

/-- Big-endian packing of bytes into 32-bit words. -/
def bytesToWords : List Nat → List Nat
  | a :: b :: c :: d :: rest => (((a * 256 + b) * 256 + c) * 256 + d) :: bytesToWords rest
  | _ => []

/-- SHA-256 small sigma 0. -/
def smallSig0 (x : Nat) : Nat := rotr32 7 x ^^^ rotr32 18 x ^^^ (x >>> 3)

/-- SHA-256 small sigma 1. -/
def smallSig1 (x : Nat) : Nat := rotr32 17 x ^^^ rotr32 19 x ^^^ (x >>> 10)

/-- SHA-256 big sigma 0. -/
def bigSig0 (x : Nat) : Nat := rotr32 2 x ^^^ rotr32 13 x ^^^ rotr32 22 x

/-- SHA-256 big sigma 1. -/
def bigSig1 (x : Nat) : Nat := rotr32 6 x ^^^ rotr32 11 x ^^^ rotr32 25 x

/-- Extend the sixteen block words to the 64-entry message schedule. -/
def extendW (w : Array Nat) : Array Nat :=
  (List.range 48).foldl (fun w i =>
    let s0 := smallSig0 (w.getD (i + 1) 0)
    let s1 := smallSig1 (w.getD (i + 14) 0)
    w.push (w32 (w.getD i 0 + s0 + w.getD (i + 9) 0 + s1))) w

/-- One SHA-256 compression round step on the working variables. -/
def roundStep (w : Array Nat) (vars : Nat × Nat × Nat × Nat × Nat × Nat × Nat × Nat)
    (t : Nat) : Nat × Nat × Nat × Nat × Nat × Nat × Nat × Nat :=
  let (a, b, c, d, e, f, g, h) := vars
  let ch := (e &&& f) ^^^ (not32 e &&& g)
  let temp1 := w32 (h + bigSig1 e + ch + sha256K.getD t 0 + w.getD t 0)
  let maj := (a &&& b) ^^^ (a &&& c) ^^^ (b &&& c)
  let temp2 := w32 (bigSig0 a + maj)
  (w32 (temp1 + temp2), a, b, c, w32 (d + temp1), e, f, g)

/-- SHA-256 compression of one 64-byte block into the chaining state. -/
def compressBlock (st : Hash8) (block : List Nat) : Hash8 :=
  let w := extendW (bytesToWords block).toArray
  let init := (st.h0, st.h1, st.h2, st.h3, st.h4, st.h5, st.h6, st.h7)
  let res := (List.range 64).foldl (roundStep w) init
  let (a, b, c, d, e, f, g, h) := res
  ⟨w32 (st.h0 + a), w32 (st.h1 + b), w32 (st.h2 + c), w32 (st.h3 + d),
   w32 (st.h4 + e), w32 (st.h5 + f), w32 (st.h6 + g), w32 (st.h7 + h)⟩

/-- SHA-256 of a byte list, as the final chaining state. -/
def sha256Core (msg : List Nat) : Hash8 :=
  (chunks64 (padMessage msg)).foldl compressBlock sha256H0

/-- Big-endian bytes of a 32-bit word. -/
def wordBytes (x : Nat) : List Nat :=
  [x / 16777216 % 256, x / 65536 % 256, x / 256 % 256, x % 256]

/-- The 32 digest bytes of a SHA-256 state. -/
def digestBytes (st : Hash8) : List Nat :=
  wordBytes st.h0 ++ wordBytes st.h1 ++ wordBytes st.h2 ++ wordBytes st.h3 ++
  wordBytes st.h4 ++ wordBytes st.h5 ++ wordBytes st.h6 ++ wordBytes st.h7

/-- Lowercase hex digit, as produced by JS Number.toString(16). -/
def hexDigitChar (n : Nat) : Char :=
  if n < 10 then Char.ofNat (48 + n) else Char.ofNat (87 + n)

/-- Two lowercase hex digits of a byte: b.toString(16).padStart(2, '0'). -/
def byteToHex (b : Nat) : List Char :=
  [hexDigitChar (b / 16 % 16), hexDigitChar (b % 16)]

/-- UTF-8 bytes of a string, the model of TextEncoder().encode. -/
def utf8Bytes (s : String) : List Nat :=
  (s.data.flatMap String.utf8EncodeChar).map UInt8.toNat

/-- hashPassword: hex-encoded SHA-256 of the password concatenated with the
fixed application salt, as in the source. -/
def hashPassword (password : String) : String :=
  String.mk ((digestBytes (sha256Core (utf8Bytes (password ++ "NCLEX_SALT_2024")))).flatMap byteToHex)

/-- verifyPassword: recompute the hash of the candidate and compare. -/
def verifyPassword (password hash : String) : Bool :=
  hashPassword password == hash

/-! ### Validation -/

/-- Lowercasing as toLowerCase performs it, on the character list. -/
def jsToLower (s : String) : String := String.mk (s.data.map Char.toLower)

/-- Trimming as the trim method performs it: remove leading and trailing
whitespace. -/
def jsTrim (s : String) : String :=
  String.mk (((s.data.dropWhile Char.isWhitespace).reverse.dropWhile Char.isWhitespace).reverse)

/-- Maximal runs of a list between (and around) separator elements. -/
def segmentsBy (sep : Char → Bool) (l : List Char) : List (List Char) :=
  l.foldr (fun c acc =>
    if sep c then [] :: acc
    else
      match acc with
      | [] => [[c]]
      | s :: rest => (c :: s) :: rest) [[]]

/-- Characters admitted before the at sign by the email regex. -/
def isLocalChar (c : Char) : Bool :=
  c.isAlphanum || c == '.' || c == '_' || c == '%' || c == '+' || c == '-'

/-- Characters admitted in the domain part by the email regex. -/
def isDomainChar (c : Char) : Bool :=
  c.isAlphanum || c == '.' || c == '-'

/-- isValidEmail: the test of the source regex. The string must be one
local part of admitted characters, an at sign, a nonempty domain of admitted
characters, a dot, and at least two ASCII letters running to the end; since
neither character class contains the at sign, the split at it is unique, and
the trailing letter block is forced to be the maximal trailing letter run. -/
def isValidEmail (email : String) : Bool :=
  match segmentsBy (fun c => c == '@') email.data with
  | [loc, domain] =>
    !loc.isEmpty && loc.all isLocalChar &&
    (let rev := domain.reverse
     let tld := rev.takeWhile Char.isAlpha
     decide (2 ≤ tld.length) &&
     (match rev.drop tld.length with
      | '.' :: preRev => !preRev.isEmpty && preRev.all isDomainChar
      | _ => false))
  | _ => false

/-- A JS regex line terminator, which the dot of a regex does not match:
newline, carriage return, line separator, paragraph separator. -/
def isLineTerminator (c : Char) : Bool :=
  c == '\n' || c == '\r' || c == ' ' || c == ' '

/-- The test of the password regex with the three lookaheads for a lowercase
letter, an uppercase letter and a digit. The regex is unanchored and each
lookahead walks dot-star, which cannot cross a line terminator, so the test
succeeds exactly when some line-terminator-free run of the password contains
all three character classes. -/
def passwordClassTest (p : String) : Bool :=
  (segmentsBy isLineTerminator p.data).any fun seg =>
    seg.any Char.isLower && seg.any Char.isUpper && seg.any Char.isDigit

/-- Outcome of validateUserData: valid, or invalid with the message of the
first failing rule. -/
inductive ValidationResult where
  | ok : ValidationResult
  | invalid (message : String) : ValidationResult
deriving DecidableEq, Repr

/-- Registration input. The fields arriving from the form are strings; the
optional fields model properties that may be absent from the userData object
(absent and JS-falsy values coincide for every check the module makes). -/
structure RegData where
  email : String
  username : String
  firstName : String
  lastName : String
  password : String
  rememberMe : Bool := false
  graduationDate : Option String := none
  schoolName : Option String := none
  examDate : Option String := none
  studyGoal : Option Nat := none
deriving DecidableEq, Repr

/-- validateUserData, rule for rule in source order; an empty string models a
missing or falsy field, so each falsy guard of the source becomes an
emptiness test. -/
def validateUserData (d : RegData) : ValidationResult :=
  if d.email == "" || !isValidEmail d.email then
    .invalid "Please enter a valid email address"
  else if d.username == "" || d.username.length < 3 then
    .invalid "Username must be at least 3 characters long"
  else if d.firstName == "" || d.firstName.length < 2 then
    .invalid "First name must be at least 2 characters long"
  else if d.lastName == "" || d.lastName.length < 2 then
    .invalid "Last name must be at least 2 characters long"
  else if d.password == "" || d.password.length < 8 then
    .invalid "Password must be at least 8 characters long"
  else if !passwordClassTest d.password then
    .invalid "Password must contain at least one uppercase letter, one lowercase letter, and one number"
  else
    .ok

/-! ### Data model -/

/-- The preferences block assigned at registration. -/
structure Preferences where
  rememberMe : Bool
  emailNotifications : Bool
  studyReminders : Bool
deriving DecidableEq, Repr

/-- The profile block assigned at registration. -/
structure Profile where
  graduationDate : Option String
  schoolName : String
  examDate : Option String
  studyGoal : Nat
deriving DecidableEq, Repr

/-- The user object as built by registerUser before it is stored; IndexedDB
injects the generated key only into the stored clone, so this object never
carries an id. -/
structure NewUser where
  email : String
  username : String
  firstName : String
  lastName : String
  passwordHash : String
  createdAt : Nat
  lastLoginAt : Option Nat
  isActive : Bool
  role : String
  preferences : Preferences
  profile : Profile
deriving DecidableEq, Repr

/-- A stored account record of the users store, carrying the generated key. -/
structure User where
  id : Nat
  email : String
  username : String
  firstName : String
  lastName : String
  passwordHash : String
  createdAt : Nat
  lastLoginAt : Option Nat
  isActive : Bool
  role : String
  preferences : Preferences
  profile : Profile
  updatedAt : Option Nat := none
deriving DecidableEq, Repr

/-- The stored record a new user object becomes under a generated key. -/
def NewUser.withId (u : NewUser) (id : Nat) : User :=
  { id := id, email := u.email, username := u.username, firstName := u.firstName,
    lastName := u.lastName, passwordHash := u.passwordHash, createdAt := u.createdAt,
    lastLoginAt := u.lastLoginAt, isActive := u.isActive, role := u.role,
    preferences := u.preferences, profile := u.profile }

/-- A sanitized account view: every field of the source object except
passwordHash. The id is optional because the object being sanitized carries
an id on the authenticate and getCurrentUser paths but not on the register
path, where sanitizeUser runs on the pre-storage object. -/
structure SanitizedUser where
  id : Option Nat
  email : String
  username : String
  firstName : String
  lastName : String
  createdAt : Nat
  lastLoginAt : Option Nat
  isActive : Bool
  role : String
  preferences : Preferences
  profile : Profile
  updatedAt : Option Nat := none
deriving DecidableEq, Repr

/-- sanitizeUser applied to a pre-storage user object: drops passwordHash;
there is no id property to keep. -/
def sanitizeNewUser (u : NewUser) : SanitizedUser :=
  { id := none, email := u.email, username := u.username, firstName := u.firstName,
    lastName := u.lastName, createdAt := u.createdAt, lastLoginAt := u.lastLoginAt,
    isActive := u.isActive, role := u.role, preferences := u.preferences,
    profile := u.profile, updatedAt := none }

/-- sanitizeUser applied to a stored user record: drops passwordHash, keeps
everything else including the id. -/
def sanitizeUser (u : User) : SanitizedUser :=
  { id := some u.id, email := u.email, username := u.username, firstName := u.firstName,
    lastName := u.lastName, createdAt := u.createdAt, lastLoginAt := u.lastLoginAt,
    isActive := u.isActive, role := u.role, preferences := u.preferences,
    profile := u.profile, updatedAt := u.updatedAt }

/-- A session record of the sessions store. -/
structure Session where
  sessionId : String
  userId : Nat
  createdAt : Nat
  expiresAt : Nat
  rememberMe : Bool
  isActive : Bool
deriving DecidableEq, Repr

/-- A progress record of the userProgress store. Every field other than the
key is optional because updateUserProgress can run against a bare fallback
object holding only the userId; absent properties are none. The collection
element types are never constructed or inspected by the module, so plain
strings stand for question identifiers, category statistics values and daily
snapshots. -/
structure Progress where
  userId : Nat
  questionsAnswered : Option Nat := none
  questionsCorrect : Option Nat := none
  currentStreak : Option Nat := none
  longestStreak : Option Nat := none
  studyTime : Option Nat := none
  categoriesProgress : Option (List (String × Nat)) := none
  flaggedQuestions : Option (List String) := none
  masteredQuestions : Option (List String) := none
  weakAreas : Option (List String) := none
  studyGoal : Option Nat := none
  dailyProgress : Option (List String) := none
  lastStudyDate : Option String := none
  createdAt : Option Nat := none
  lastUpdated : Option Nat := none
deriving DecidableEq, Repr

/-- The value held by the in-memory currentUser pointer: authenticateUser
stores the full record, loadCurrentSession stores a sanitized view. The
module never reads the pointer back, only overwrites or clears it. -/
inductive CurrentUserVal where
  | full (u : User)
  | sanitized (u : SanitizedUser)
deriving DecidableEq, Repr

/-- The whole persistent state: the three IndexedDB stores with the key
generator of the users store, the two web-storage token slots, the cached
account snapshot slot and the in-memory current user pointer. -/
structure StoreState where
  users : List User := []
  sessions : List Session := []
  progress : List Progress := []
  nextUserId : Nat := 1
  localSessionId : Option String := none
  sessionSessionId : Option String := none
  localUserData : Option SanitizedUser := none
  currentUser : Option CurrentUserVal := none
deriving DecidableEq, Repr

/-! ### Store primitives -/

/-- Failure of an IndexedDB request; a unique-index violation surfaces as a
ConstraintError whose message is produced by the browser. -/
inductive StoreError where
  | constraintError : StoreError
deriving DecidableEq, Repr

/-- getUserByEmail: lookup on the unique email index. -/
def getUserByEmail (users : List User) (email : String) : Option User :=
  users.find? fun u => u.email == email

/-- getUserById: lookup by primary key. -/
def getUserById (users : List User) (id : Nat) : Option User :=
  users.find? fun u => u.id == id

/-- storeUser: an add on the users store, which assigns the generated key and
fails with a ConstraintError when a unique index (email or username) already
holds the value; a failed add leaves the store untouched. -/
def storeUserAdd (s : StoreState) (u : NewUser) :
    Except StoreError (Nat × StoreState) :=
  if s.users.any (fun v => v.email == u.email || v.username == u.username) then
    .error .constraintError
  else
    .ok (s.nextUserId,
      { s with users := s.users ++ [u.withId s.nextUserId],
               nextUserId := s.nextUserId + 1 })

/-- updateUser: a put on the users store, replacing the record with the same
key; it fails with a ConstraintError when another record holds the same value
in a unique index. -/
def updateUserPut (users : List User) (u : User) : Except StoreError (List User) :=
  if users.any (fun v => v.id != u.id && (v.email == u.email || v.username == u.username)) then
    .error .constraintError
  else
    .ok (u :: users.filter fun v => v.id != u.id)

/-- getSession: lookup by session key. -/
def getSession (sessions : List Session) (sessionId : String) : Option Session :=
  sessions.find? fun t => t.sessionId == sessionId

/-- A put on the sessions store, replacing the record with the same key. -/
def putSession (sessions : List Session) (sess : Session) : List Session :=
  sess :: sessions.filter fun t => t.sessionId != sess.sessionId

/-- deleteSession: remove the record with the given key. -/
def deleteSession (sessions : List Session) (sessionId : String) : List Session :=
  sessions.filter fun t => t.sessionId != sessionId

/-- A put on the userProgress store, replacing the record with the same key. -/
def putProgress (ps : List Progress) (p : Progress) : List Progress :=
  p :: ps.filter fun q => q.userId != p.userId

/-- getUserProgress: lookup by key. -/
def getUserProgress (ps : List Progress) (userId : Nat) : Option Progress :=
  ps.find? fun p => p.userId == userId

/-! ### Sessions and helpers -/

/-- isSessionExpired: the current time is strictly past expiresAt. -/
def isSessionExpired (session : Session) (now : Nat) : Bool :=
  decide (session.expiresAt < now)

/-- generateSessionId; the random tail is an oracle argument. -/
def generateSessionId (now : Nat) (rnd : String) : String :=
  "sess_" ++ toString now ++ "_" ++ rnd

/-- createSession: build the session with expiry twelve hours or thirty days
ahead, put it in the sessions store, and write the token into localStorage
when rememberMe is set, otherwise into sessionStorage. -/
def createSession (s : StoreState) (userId : Nat) (rememberMe : Bool)
    (now : Nat) (rnd : String) : Session × StoreState :=
  let sessionId := generateSessionId now rnd
  let expiresAt := now + (if rememberMe then 30 * 24 * 60 * 60 * 1000 else 12 * 60 * 60 * 1000)
  let session : Session :=
    { sessionId := sessionId, userId := userId, createdAt := now,
      expiresAt := expiresAt, rememberMe := rememberMe, isActive := true }
  let s1 := { s with sessions := putSession s.sessions session }
  let s2 :=
    if rememberMe then { s1 with localSessionId := some sessionId }
    else { s1 with sessionSessionId := some sessionId }
  (session, s2)

/-- A JS truthiness filter on a possibly absent string: null, undefined and
the empty string are all falsy. -/
def orFalsy (a : Option String) : Option String :=
  match a with
  | some t => if t == "" then none else some t
  | none => none

/-- The token the module acts on: the localStorage slot first, the
sessionStorage slot as fallback, both through JS truthiness. -/
def tokenOf (s : StoreState) : Option String :=
  match orFalsy s.localSessionId with
  | some t => some t
  | none => orFalsy s.sessionSessionId

/-- The studyGoal default: a missing or zero (falsy) goal becomes 20. -/
def studyGoalOr20 (g : Option Nat) : Nat :=
  match g with
  | some n => if n == 0 then 20 else n
  | none => 20

/-! ### Manager operations -/

/-- A failure message: the literal texts thrown by the module itself, or the
browser-produced message of a store ConstraintError. -/
inductive FailMsg where
  | text (s : String)
  | dbConstraint : FailMsg
deriving DecidableEq, Repr

/-- Result of registerUser and authenticateUser. -/
inductive OpResult where
  | success (user : SanitizedUser) (session : Session)
  | failure (message : FailMsg)
deriving DecidableEq, Repr

/-- Whether an operation result is a success. -/
def OpResult.isSuccess : OpResult → Bool
  | .success _ _ => true
  | .failure _ => false

/-- The sanitized user of a successful result. -/
def OpResult.user? : OpResult → Option SanitizedUser
  | .success u _ => some u
  | .failure _ => none

/-- The session of a successful result. -/
def OpResult.session? : OpResult → Option Session
  | .success _ t => some t
  | .failure _ => none

/-- initializeUserProgress: the zeroed progress record put for a new user. -/
def initialProgress (userId : Nat) (now : Nat) : Progress :=
  { userId := userId, questionsAnswered := some 0, questionsCorrect := some 0,
    currentStreak := some 0, longestStreak := some 0, studyTime := some 0,
    categoriesProgress := some [], flaggedQuestions := some [],
    masteredQuestions := some [], weakAreas := some [], studyGoal := some 20,
    dailyProgress := some [], lastStudyDate := none, createdAt := some now,
    lastUpdated := none }

/-- initializeUserProgress left in the state. -/
def initializeUserProgress (s : StoreState) (userId : Nat) (now : Nat) : StoreState :=
  { s with progress := putProgress s.progress (initialProgress userId now) }

/-- The secure user object registerUser builds: normalized email, trimmed
names, the derived password hash, and the defaults. -/
def newUserOf (d : RegData) (now : Nat) : NewUser :=
  { email := jsTrim (jsToLower d.email)
    username := jsTrim d.username
    firstName := jsTrim d.firstName
    lastName := jsTrim d.lastName
    passwordHash := hashPassword d.password
    createdAt := now
    lastLoginAt := none
    isActive := true
    role := "student"
    preferences :=
      { rememberMe := d.rememberMe, emailNotifications := true, studyReminders := true }
    profile :=
      { graduationDate := orFalsy d.graduationDate,
        schoolName := d.schoolName.getD "",
        examDate := orFalsy d.examDate,
        studyGoal := studyGoalOr20 d.studyGoal } }

/-- registerUser: validate, check for an existing account under the raw input
email, build the normalized user object, add it (the store may refuse with a
ConstraintError through its unique indexes), initialize progress, create a
session, and return the sanitized pre-storage object with the session. Every
thrown error is caught and returned as a failure message. -/
def registerUser (s : StoreState) (d : RegData) (now : Nat) (rnd : String) :
    OpResult × StoreState :=
  match validateUserData d with
  | .invalid m => (.failure (.text m), s)
  | .ok =>
    match getUserByEmail s.users d.email with
    | some _ => (.failure (.text "An account with this email already exists"), s)
    | none =>
      match storeUserAdd s (newUserOf d now) with
      | .error _ => (.failure .dbConstraint, s)
      | .ok (userId, s1) =>
        (.success (sanitizeNewUser (newUserOf d now))
          (createSession (initializeUserProgress s1 userId now) userId d.rememberMe now rnd).1,
         (createSession (initializeUserProgress s1 userId now) userId d.rememberMe now rnd).2)

/-- updateLastLogin: refetch the user by id and put it back with lastLoginAt
stamped; absent users are ignored. -/
def updateLastLogin (s : StoreState) (userId : Nat) (now : Nat) :
    Except StoreError StoreState :=
  match getUserById s.users userId with
  | none => .ok s
  | some u =>
    match updateUserPut s.users { u with lastLoginAt := some now } with
    | .error e => .error e
    | .ok users1 => .ok { s with users := users1 }

/-- authenticateUser: look the account up by normalized email, verify the
password, reject inactive accounts, stamp lastLoginAt, create a session under
the requested rememberMe mode, set the in-memory current user to the record
fetched before the stamp, and return that record sanitized. -/
def authenticateUser (s : StoreState) (email password : String)
    (rememberMe : Bool) (now : Nat) (rnd : String) : OpResult × StoreState :=
  match getUserByEmail s.users (jsTrim (jsToLower email)) with
  | none => (.failure (.text "Invalid email or password"), s)
  | some user =>
    if !verifyPassword password user.passwordHash then
      (.failure (.text "Invalid email or password"), s)
    else if !user.isActive then
      (.failure (.text "Account has been deactivated. Please contact support."), s)
    else
      match updateLastLogin s user.id now with
      | .error _ => (.failure .dbConstraint, s)
      | .ok s1 =>
        (.success (sanitizeUser user) (createSession s1 user.id rememberMe now rnd).1,
         { (createSession s1 user.id rememberMe now rnd).2 with
             currentUser := some (.full user) })

/-- logout: delete the session row of the currently stored token if any,
clear both token slots and the cached snapshot, clear the current user
pointer, and report success unconditionally. -/
def logout (s : StoreState) : Bool × StoreState :=
  let s1 :=
    match tokenOf s with
    | some sessionId => { s with sessions := deleteSession s.sessions sessionId }
    | none => s
  (true,
   { s1 with localSessionId := none, sessionSessionId := none,
             localUserData := none, currentUser := none })

/-- getCurrentUser: read the stored token (localStorage first); with no token
answer null; with a token whose session is missing or expired, log out as a
side effect and answer null; otherwise answer the sanitized owning account,
or null when the account row is gone. -/
def getCurrentUser (s : StoreState) (now : Nat) : Option SanitizedUser × StoreState :=
  match tokenOf s with
  | none => (none, s)
  | some sessionId =>
    match getSession s.sessions sessionId with
    | none => (none, (logout s).2)
    | some session =>
      if isSessionExpired session now then
        (none, (logout s).2)
      else
        match getUserById s.users session.userId with
        | some user => (some (sanitizeUser user), s)
        | none => (none, s)

/-- Result of updateUserProfile. -/
inductive ProfileResult where
  | success (user : SanitizedUser)
  | failure (message : FailMsg)
deriving DecidableEq, Repr

/-- updateUserProfile: shallow-merge arbitrary updates over the fetched
record (modelled by a function on stored records, since the spread can touch
any schema field), stamp updatedAt, and put the result back. -/
def updateUserProfile (s : StoreState) (userId : Nat) (upd : User → User)
    (now : Nat) : ProfileResult × StoreState :=
  match getUserById s.users userId with
  | none => (.failure (.text "User not found"), s)
  | some user =>
    match updateUserPut s.users { upd user with updatedAt := some now } with
    | .error _ => (.failure .dbConstraint, s)
    | .ok users1 =>
      (.success (sanitizeUser { upd user with updatedAt := some now }),
       { s with users := users1 })

/-- updateUserProgress: shallow-merge a patch (modelled as a function, since
the spread can touch any schema field) over the existing record or a bare
fallback holding only the key, stamp lastUpdated, and put the result back. -/
def updateUserProgress (s : StoreState) (userId : Nat) (patch : Progress → Progress)
    (now : Nat) : Bool × StoreState :=
  let existing := (getUserProgress s.progress userId).getD { userId := userId }
  let updated := { patch existing with lastUpdated := some now }
  (true, { s with progress := putProgress s.progress updated })

/-- loadCurrentSession: resolve the current user and, when present, remember
it in the pointer and cache the sanitized snapshot. -/
def loadCurrentSession (s : StoreState) (now : Nat) : StoreState :=
  match getCurrentUser s now with
  | (some user, s1) =>
    { s1 with currentUser := some (.sanitized user), localUserData := some user }
  | (none, s1) => s1

/-- One call of any manager operation, with its external inputs (clock,
token randomness, merge functions) packaged in the constructor. -/
inductive Op where
  | register (d : RegData) (now : Nat) (rnd : String)
  | authenticate (email password : String) (rememberMe : Bool) (now : Nat) (rnd : String)
  | getCurrent (now : Nat)
  | doLogout
  | updateProfile (userId : Nat) (upd : User → User) (now : Nat)
  | getProgress (userId : Nat)
  | updateProgress (userId : Nat) (patch : Progress → Progress) (now : Nat)
  | getStats (userId : Nat)
  | loadSession (now : Nat)

/-- The state left by one manager operation; the read-only operations
(getUserProgress, getUserStats) leave the state unchanged. -/
def applyOp (s : StoreState) : Op → StoreState
  | .register d now rnd => (registerUser s d now rnd).2
  | .authenticate e p r now rnd => (authenticateUser s e p r now rnd).2
  | .getCurrent now => (getCurrentUser s now).2
  | .doLogout => (logout s).2
  | .updateProfile uid upd now => (updateUserProfile s uid upd now).2
  | .getProgress _ => s
  | .updateProgress uid patch now => (updateUserProgress s uid patch now).2
  | .getStats _ => s
  | .loadSession now => loadCurrentSession s now

/-! ### Specification-side comparison definitions and refutation scaffolding -/

/-- The validation cascade exactly as the specification words it, rule by
rule in the stated order, on the stored rule messages; the last rule is the
character-class rule with the semantics the source regex actually has. This
definition follows the spec text and exists to be compared with
validateUserData, which follows the source. -/
def specValidationCascade (d : RegData) : ValidationResult :=
  if !isValidEmail d.email then
    .invalid "Please enter a valid email address"
  else if d.username.length < 3 then
    .invalid "Username must be at least 3 characters long"
  else if d.firstName.length < 2 then
    .invalid "First name must be at least 2 characters long"
  else if d.lastName.length < 2 then
    .invalid "Last name must be at least 2 characters long"
  else if d.password.length < 8 then
    .invalid "Password must be at least 8 characters long"
  else if !passwordClassTest d.password then
    .invalid "Password must contain at least one uppercase letter, one lowercase letter, and one number"
  else
    .ok

/-- All eight words of a hash state are 32-bit values. -/
def Hash8Bounded (h : Hash8) : Prop :=
  h.h0 < 4294967296 ∧ h.h1 < 4294967296 ∧ h.h2 < 4294967296 ∧ h.h3 < 4294967296 ∧
  h.h4 < 4294967296 ∧ h.h5 < 4294967296 ∧ h.h6 < 4294967296 ∧ h.h7 < 4294967296

/-- The 256-bit value of a hash state, big-endian by words. -/
def wordsToNat (h : Hash8) : Nat :=
  ((((((h.h0 * 4294967296 + h.h1) * 4294967296 + h.h2) * 4294967296 + h.h3) * 4294967296 + h.h4) *
      4294967296 + h.h5) * 4294967296 + h.h6) * 4294967296 + h.h7

/-- The hash state hashPassword hex-encodes. -/
def saltedCore (password : String) : Hash8 :=
  sha256Core (utf8Bytes (password ++ "NCLEX_SALT_2024"))

/-- A family of pairwise distinct password strings. -/
def aStr (n : Nat) : String := String.mk (List.replicate n 'a')

/-- A concrete valid registration input used by witnesses and counterexamples. -/
def regAnn : RegData :=
  { email := "a@x.com", username := "firstuser", firstName := "Ann",
    lastName := "Lee", password := "Passw0rd1" }

/-- The same account email in different letter case, other fields fresh. -/
def regBobCase : RegData :=
  { email := "A@x.com", username := "seconduser", firstName := "Bob",
    lastName := "Kim", password := "Passw0rd2" }

/-- The same account email with surrounding whitespace, other fields fresh. -/
def regCalSpace : RegData :=
  { email := " a@x.com", username := "thirduser", firstName := "Cal",
    lastName := "Poe", password := "Passw0rd3" }

/-- A registration input whose username has length three only before
trimming. -/
def regUntrimmed : RegData :=
  { email := "b@x.com", username := "ab ", firstName := "Ann",
    lastName := "Lee", password := "Passw0rd1" }

/-- A registration input whose password holds all three character classes,
but never on one line. -/
def regNewlinePwd : RegData :=
  { email := "c@x.com", username := "fourthuser", firstName := "Ann",
    lastName := "Lee", password := "AAAA1111\naaaa" }

/-- A state holding one progress record and nothing else. -/
def progOnlyState : StoreState := { progress := [initialProgress 7 5] }

/-- A concrete active stored account. -/
def userA : User :=
  { id := 1, email := "a@x.com", username := "firstuser", firstName := "Ann",
    lastName := "Lee", passwordHash := "h", createdAt := 0, lastLoginAt := none,
    isActive := true, role := "student",
    preferences := { rememberMe := false, emailNotifications := true, studyReminders := true },
    profile := { graduationDate := none, schoolName := "", examDate := none, studyGoal := 20 } }

/-- A second concrete stored account whose hash verifies a known password. -/
def userB : User :=
  { id := 2, email := "b@x.com", username := "seconduser", firstName := "Bob",
    lastName := "Kim", passwordHash := hashPassword "Bbbb2222", createdAt := 0,
    lastLoginAt := none, isActive := true, role := "student",
    preferences := { rememberMe := false, emailNotifications := true, studyReminders := true },
    profile := { graduationDate := none, schoolName := "", examDate := none, studyGoal := 20 } }

/-- A session for the first account that expires at time ten. -/
def sessionOld : Session :=
  { sessionId := "tokOld", userId := 1, createdAt := 0, expiresAt := 10,
    rememberMe := true, isActive := true }

/-- A state whose durable slot points at the expired session of an existing
active account. -/
def sExpired : StoreState :=
  { users := [userA], sessions := [sessionOld], localSessionId := some "tokOld",
    nextUserId := 2 }

/-- A durable session for the first account that is live until thirty days. -/
def sessionDurable : Session :=
  { sessionId := "tokOld", userId := 1, createdAt := 0, expiresAt := 2592000000,
    rememberMe := true, isActive := true }

/-- A state with two accounts and a live durable token for the first. -/
def sShadow : StoreState :=
  { users := [userA, userB], sessions := [sessionDurable],
    localSessionId := some "tokOld", nextUserId := 3 }

/-- sShadow after the login stamp of the second account. -/
def sShadowLL : StoreState :=
  { sShadow with users := [{ userB with lastLoginAt := some 100 }, userA] }

/-- sShadow after a full ephemeral authentication of the second account. -/
def sShadowAuthed : StoreState :=
  { (createSession sShadowLL 2 false 100 "rr").2 with currentUser := some (.full userB) }

/-! ## Helper lemmas -/

theorem verify_hash_self (p : String) : verifyPassword p (hashPassword p) = true := by
  simp [verifyPassword]

theorem find?_filter_compl {α : Type} (p q : α → Bool) (l : List α)
    (h : ∀ x, q x = false → p x = false) : (l.filter q).find? p = l.find? p := by
  induction l with
  | nil => rfl
  | cons x xs ih =>
    by_cases hq : q x
    · cases hp : p x <;> simp [List.filter_cons, hq, List.find?_cons, hp, ih]
    · have hq' : q x = false := by simpa using hq
      simp [List.filter_cons, hq', List.find?_cons, h x hq', ih]

theorem getSession_putSession_ne (l : List Session) (t : Session) (k : String)
    (hk : k ≠ t.sessionId) : getSession (putSession l t) k = getSession l k := by
  unfold getSession putSession
  have hhead : (t.sessionId == k) = false := by
    simp only [beq_eq_false_iff_ne]
    exact fun h => hk h.symm
  rw [List.find?_cons, hhead]
  exact find?_filter_compl _ _ l fun x hx => by
    have : x.sessionId = t.sessionId := by simpa using hx
    simp [this, hhead]

theorem getUserById_cons_filter_ne (l : List User) (u : User) (k : Nat)
    (hk : u.id ≠ k) : getUserById (u :: l.filter fun v => v.id != u.id) k = getUserById l k := by
  unfold getUserById
  have hhead : (u.id == k) = false := by simpa using hk
  rw [List.find?_cons, hhead]
  exact find?_filter_compl _ _ l fun x hx => by
    have : x.id = u.id := by simpa using hx
    simp [this, hhead]

theorem getUserById_append_fresh (us : List User) (w : User) (k : Nat)
    (h : ∀ v ∈ us, v.id ≠ k) :
    getUserById (us ++ [w]) k = if w.id == k then some w else none := by
  unfold getUserById
  induction us with
  | nil => cases hw : (w.id == k) <;> simp [List.find?_cons, hw]
  | cons v vs ih =>
    have hv : (v.id == k) = false := by simpa using h v (List.mem_cons_self v vs)
    simpa [List.find?_cons, hv] using ih fun x hx => h x (List.mem_cons_of_mem v hx)

theorem putProgress_preserves (ps : List Progress) (p : Progress) (uid : Nat)
    (h : ∃ q ∈ ps, q.userId = uid) : ∃ q ∈ putProgress ps p, q.userId = uid := by
  obtain ⟨q, hq, hquid⟩ := h
  by_cases huid : p.userId = uid
  · exact ⟨p, List.mem_cons_self p _, huid⟩
  · refine ⟨q, List.mem_cons_of_mem p (List.mem_filter.mpr ⟨hq, ?_⟩), hquid⟩
    simp only [bne_iff_ne, ne_eq]
    exact fun hc => huid (hc ▸ hquid)

theorem putProgress_filter_self (ps : List Progress) (p : Progress) :
    (putProgress ps p).filter (fun q => q.userId == p.userId) = [p] := by
  unfold putProgress
  rw [List.filter_cons]
  simp only [beq_self_eq_true, if_pos]
  rw [List.filter_filter, List.filter_eq_nil_iff.mpr]
  intro a _
  by_cases ha : a.userId = p.userId <;> simp [ha]

theorem createSession_fst (s : StoreState) (uid : Nat) (rm : Bool) (now : Nat) (rnd : String) :
    (createSession s uid rm now rnd).1 =
      { sessionId := generateSessionId now rnd, userId := uid, createdAt := now,
        expiresAt := now + (if rm then 30 * 24 * 60 * 60 * 1000 else 12 * 60 * 60 * 1000),
        rememberMe := rm, isActive := true } := rfl

theorem createSession_snd_false (s : StoreState) (uid : Nat) (now : Nat) (rnd : String) :
    (createSession s uid false now rnd).2 =
      { s with sessions := putSession s.sessions (createSession s uid false now rnd).1,
               sessionSessionId := some (generateSessionId now rnd) } := rfl

theorem createSession_snd_fields (s : StoreState) (uid : Nat) (rm : Bool) (now : Nat) (rnd : String) :
    (createSession s uid rm now rnd).2.users = s.users ∧
    (createSession s uid rm now rnd).2.progress = s.progress ∧
    (createSession s uid rm now rnd).2.nextUserId = s.nextUserId ∧
    (createSession s uid rm now rnd).2.localUserData = s.localUserData ∧
    (createSession s uid rm now rnd).2.currentUser = s.currentUser ∧
    (createSession s uid rm now rnd).2.sessions = putSession s.sessions (createSession s uid rm now rnd).1 := by
  cases rm <;> exact ⟨rfl, rfl, rfl, rfl, rfl, rfl⟩

theorem updateLastLogin_ok_spec (s : StoreState) (uid now : Nat) (s1 : StoreState)
    (h : updateLastLogin s uid now = .ok s1) : s1 = { s with users := s1.users } := by
  unfold updateLastLogin at h
  split at h
  · cases h; rfl
  · split at h
    · cases h
    · cases h; rfl

/-! ## Claim C2: session expiry boundary -/

/-- Claim C2, amended: a session created with rememberMe set expires thirty
days after creation and otherwise twelve hours after creation, and
isSessionExpired judges it expired exactly when the current time is strictly
past expiresAt, so at the boundary instant now equal to expiresAt the session
is still not expired. -/
theorem createSession_expiry_strict (s : StoreState) (uid : Nat) (rm : Bool)
    (now t₀ : Nat) (rnd : String) :
    (createSession s uid rm now rnd).1.createdAt = now ∧
    (createSession s uid rm now rnd).1.expiresAt =
      now + (if rm then 30 * 24 * 60 * 60 * 1000 else 12 * 60 * 60 * 1000) ∧
    isSessionExpired (createSession s uid rm now rnd).1 t₀ =
      decide (now + (if rm then 30 * 24 * 60 * 60 * 1000 else 12 * 60 * 60 * 1000) < t₀) := by
  refine ⟨rfl, rfl, rfl⟩

/-- Claim C2, counterexample to the claim as stated: at the exact boundary
instant now equal to expiresAt, the session produced by createSession without
rememberMe is judged NOT expired, against the claim that the boundary instant
counts as expired. -/
theorem session_boundary_not_expired_cex :
    (createSession {} 1 false 0 "r").1.expiresAt = 43200000 ∧
    isSessionExpired (createSession {} 1 false 0 "r").1 43200000 = false ∧
    isSessionExpired (createSession {} 1 false 0 "r").1 43200001 = true := by
  refine ⟨rfl, rfl, rfl⟩

/-! ## Claim C8: logout -/

/-- Claim C8: logout always reports success, deletes the session row of the
currently stored token when one exists, clears both token slots, the cached
account snapshot and the in-memory current-user pointer, and running it twice
leaves exactly the state of running it once. -/
theorem logout_idempotent_total (s : StoreState) :
    (logout s).1 = true ∧
    (logout s).2.localSessionId = none ∧
    (logout s).2.sessionSessionId = none ∧
    (logout s).2.localUserData = none ∧
    (logout s).2.currentUser = none ∧
    (logout s).2.sessions =
      (match tokenOf s with
       | some t => deleteSession s.sessions t
       | none => s.sessions) ∧
    logout (logout s).2 = logout s := by
  unfold logout
  cases htok : tokenOf s with
  | none => exact ⟨rfl, rfl, rfl, rfl, rfl, rfl, rfl⟩
  | some t => exact ⟨rfl, rfl, rfl, rfl, rfl, rfl, rfl⟩

/-! ## Inversion and frame lemmas for registerUser and friends -/

theorem registerUser_success_spec (s : StoreState) (d : RegData) (now : Nat) (rnd : String)
    (u : SanitizedUser) (sess : Session) (s' : StoreState)
    (h : registerUser s d now rnd = (.success u sess, s')) :
    validateUserData d = .ok ∧
    getUserByEmail s.users d.email = none ∧
    (s.users.any fun v => v.email == (newUserOf d now).email ||
      v.username == (newUserOf d now).username) = false ∧
    u = sanitizeNewUser (newUserOf d now) ∧
    sess = (createSession (initializeUserProgress
      { s with users := s.users ++ [(newUserOf d now).withId s.nextUserId],
               nextUserId := s.nextUserId + 1 } s.nextUserId now)
      s.nextUserId d.rememberMe now rnd).1 ∧
    s' = (createSession (initializeUserProgress
      { s with users := s.users ++ [(newUserOf d now).withId s.nextUserId],
               nextUserId := s.nextUserId + 1 } s.nextUserId now)
      s.nextUserId d.rememberMe now rnd).2 := by
  unfold registerUser at h
  cases hv : validateUserData d with
  | invalid m => rw [hv] at h; simp at h
  | ok =>
    rw [hv] at h
    cases hdup : getUserByEmail s.users d.email with
    | some u0 => rw [hdup] at h; simp at h
    | none =>
      rw [hdup] at h
      unfold storeUserAdd at h
      cases hany : (s.users.any fun v => v.email == (newUserOf d now).email ||
          v.username == (newUserOf d now).username) with
      | true => simp [hany] at h
      | false =>
        simp only [hany, Bool.false_eq_true, if_false, Prod.mk.injEq,
          OpResult.success.injEq] at h
        obtain ⟨⟨h1, h2⟩, h3⟩ := h
        exact ⟨rfl, rfl, rfl, h1.symm, h2.symm, h3.symm⟩

theorem registerUser_isSuccess_inv (s : StoreState) (d : RegData) (now : Nat) (rnd : String)
    (h : (registerUser s d now rnd).1.isSuccess = true) :
    ∃ u sess s', registerUser s d now rnd = (.success u sess, s') := by
  rcases hr : registerUser s d now rnd with ⟨res, s'⟩
  cases res with
  | failure m => rw [hr] at h; simp [OpResult.isSuccess] at h
  | success u sess => exact ⟨u, sess, s', rfl⟩

theorem registerUser_progress_shape (s : StoreState) (d : RegData) (now : Nat) (rnd : String) :
    (registerUser s d now rnd).2.progress = s.progress ∨
    (registerUser s d now rnd).2.progress =
      putProgress s.progress (initialProgress s.nextUserId now) := by
  unfold registerUser
  cases hv : validateUserData d with
  | invalid m => exact .inl rfl
  | ok =>
    cases hdup : getUserByEmail s.users d.email with
    | some u0 => exact .inl rfl
    | none =>
      unfold storeUserAdd
      cases hany : (s.users.any fun v => v.email == (newUserOf d now).email ||
          v.username == (newUserOf d now).username) with
      | true => exact .inl rfl
      | false =>
        refine .inr ?_
        simp only [Bool.false_eq_true, if_false]
        exact ((createSession_snd_fields _ _ _ _ _).2.1)

theorem logout_progress (s : StoreState) : (logout s).2.progress = s.progress := by
  unfold logout
  cases tokenOf s <;> rfl

theorem authenticateUser_progress_eq (s : StoreState) (e p : String) (r : Bool)
    (now : Nat) (rnd : String) :
    (authenticateUser s e p r now rnd).2.progress = s.progress := by
  unfold authenticateUser
  split
  · rfl
  next user _ =>
    split
    · rfl
    · split
      · rfl
      · split
        · rfl
        next s1 hul =>
          show ((createSession s1 user.id r now rnd).2).progress = s.progress
          rw [(createSession_snd_fields _ _ _ _ _).2.1,
            updateLastLogin_ok_spec s user.id now s1 hul]

theorem getCurrentUser_progress_eq (s : StoreState) (now : Nat) :
    (getCurrentUser s now).2.progress = s.progress := by
  unfold getCurrentUser
  split
  · rfl
  · split
    · exact logout_progress s
    · split
      · exact logout_progress s
      · split
        · rfl
        · rfl

theorem updateUserProfile_progress_eq (s : StoreState) (uid : Nat) (upd : User → User)
    (now : Nat) : (updateUserProfile s uid upd now).2.progress = s.progress := by
  unfold updateUserProfile
  split
  · rfl
  · split
    · rfl
    · rfl

theorem loadCurrentSession_progress_eq (s : StoreState) (now : Nat) :
    (loadCurrentSession s now).progress = s.progress := by
  unfold loadCurrentSession
  rcases hg : getCurrentUser s now with ⟨res, s1⟩
  have h1 : s1.progress = s.progress := by
    have := getCurrentUser_progress_eq s now
    rw [hg] at this
    exact this
  cases res with
  | none => simpa using h1
  | some user => simpa using h1

/-! ## Claim C5: progress initialization and preservation -/

/-- Claim C5: immediately after every successful register call the progress
store holds exactly one record keyed by the new account id (the key the
store generator assigned), with all counters zero, all collections empty and
lastStudyDate null; and no manager operation ever removes a progress record
key from the store. -/
theorem register_creates_zeroed_progress :
    (∀ s d now rnd, (registerUser s d now rnd).1.isSuccess = true →
      (registerUser s d now rnd).2.progress.filter (fun p => p.userId == s.nextUserId) =
        [initialProgress s.nextUserId now]) ∧
    (∀ uid now, (initialProgress uid now).questionsAnswered = some 0 ∧
      (initialProgress uid now).questionsCorrect = some 0 ∧
      (initialProgress uid now).currentStreak = some 0 ∧
      (initialProgress uid now).longestStreak = some 0 ∧
      (initialProgress uid now).studyTime = some 0 ∧
      (initialProgress uid now).categoriesProgress = some [] ∧
      (initialProgress uid now).flaggedQuestions = some [] ∧
      (initialProgress uid now).masteredQuestions = some [] ∧
      (initialProgress uid now).weakAreas = some [] ∧
      (initialProgress uid now).dailyProgress = some [] ∧
      (initialProgress uid now).lastStudyDate = none) ∧
    (∀ s op uid, (∃ p ∈ s.progress, p.userId = uid) →
      ∃ p ∈ (applyOp s op).progress, p.userId = uid) := by
  refine ⟨?_, ?_, ?_⟩
  · intro s d now rnd h
    obtain ⟨u, sess, s', hr⟩ := registerUser_isSuccess_inv s d now rnd h
    obtain ⟨_, _, _, _, _, hs'⟩ := registerUser_success_spec s d now rnd u sess s' hr
    have hprog : (registerUser s d now rnd).2.progress =
        putProgress s.progress (initialProgress s.nextUserId now) := by
      rw [hr]
      show s'.progress = _
      rw [hs']
      exact (createSession_snd_fields _ _ _ _ _).2.1
    rw [hprog]
    exact putProgress_filter_self s.progress (initialProgress s.nextUserId now)
  · intro uid now
    exact ⟨rfl, rfl, rfl, rfl, rfl, rfl, rfl, rfl, rfl, rfl, rfl⟩
  · intro s op uid hex
    cases op with
    | register d now rnd =>
      rcases registerUser_progress_shape s d now rnd with hshape | hshape <;>
        simp only [applyOp, hshape]
      · exact hex
      · exact putProgress_preserves _ _ _ hex
    | authenticate e p r now rnd =>
      simpa only [applyOp, authenticateUser_progress_eq] using hex
    | getCurrent now =>
      simpa only [applyOp, getCurrentUser_progress_eq] using hex
    | doLogout =>
      simpa only [applyOp, logout_progress] using hex
    | updateProfile uid2 upd now =>
      simpa only [applyOp, updateUserProfile_progress_eq] using hex
    | getProgress uid2 => simpa only [applyOp] using hex
    | updateProgress uid2 patch now =>
      simp only [applyOp, updateUserProgress]
      exact putProgress_preserves _ _ _ hex
    | getStats uid2 => simpa only [applyOp] using hex
    | loadSession now =>
      simpa only [applyOp, loadCurrentSession_progress_eq] using hex

/-- Witness for claim C5: a concrete successful registration leaves exactly
the zeroed progress record for the generated account id, and a logout keeps
a present progress key present. -/
theorem register_creates_zeroed_progress_witness :
    (registerUser {} regAnn 1000 "r1").2.progress.filter
      (fun p => p.userId == 1) = [initialProgress 1 1000] ∧
    ∃ p ∈ (applyOp progOnlyState Op.doLogout).progress, p.userId = 7 := by
  constructor
  · exact register_creates_zeroed_progress.1 {} regAnn 1000 "r1" (by decide)
  · exact register_creates_zeroed_progress.2.2 progOnlyState
      Op.doLogout 7 ⟨initialProgress 7 5, by simp [progOnlyState], rfl⟩

/-! ## Validation lemmas -/

theorem validate_guard_email (d : RegData) :
    (d.email == "" || !isValidEmail d.email) = !isValidEmail d.email := by
  cases hq : d.email == ""
  · rfl
  · have he : d.email = "" := eq_of_beq hq
    rw [he]; rfl

theorem validate_guard_username (d : RegData) :
    (d.username == "" || decide (d.username.length < 3)) = decide (d.username.length < 3) := by
  cases hq : d.username == ""
  · rfl
  · have he : d.username = "" := eq_of_beq hq
    rw [he]; rfl

theorem validate_guard_firstName (d : RegData) :
    (d.firstName == "" || decide (d.firstName.length < 2)) = decide (d.firstName.length < 2) := by
  cases hq : d.firstName == ""
  · rfl
  · have he : d.firstName = "" := eq_of_beq hq
    rw [he]; rfl

theorem validate_guard_lastName (d : RegData) :
    (d.lastName == "" || decide (d.lastName.length < 2)) = decide (d.lastName.length < 2) := by
  cases hq : d.lastName == ""
  · rfl
  · have he : d.lastName = "" := eq_of_beq hq
    rw [he]; rfl

theorem validate_guard_password (d : RegData) :
    (d.password == "" || decide (d.password.length < 8)) = decide (d.password.length < 8) := by
  cases hq : d.password == ""
  · rfl
  · have he : d.password = "" := eq_of_beq hq
    rw [he]; rfl

theorem validate_eq_cascade (d : RegData) : validateUserData d = specValidationCascade d := by
  unfold validateUserData specValidationCascade
  rw [validate_guard_email, validate_guard_username, validate_guard_firstName,
    validate_guard_lastName, validate_guard_password]
  simp only [decide_eq_true_eq]

theorem validate_ok_iff (d : RegData) :
    validateUserData d = .ok ↔
      (isValidEmail d.email = true ∧ 3 ≤ d.username.length ∧ 2 ≤ d.firstName.length ∧
       2 ≤ d.lastName.length ∧ 8 ≤ d.password.length ∧ passwordClassTest d.password = true) := by
  rw [validate_eq_cascade]
  unfold specValidationCascade
  cases hA : isValidEmail d.email
  · simp
  · simp only [Bool.not_true, Bool.false_eq_true, if_false, true_and]
    by_cases hB : d.username.length < 3
    · simp [hB, Nat.not_le.mpr hB]
    · simp only [hB, if_false, decide_eq_true_eq, if_neg]
      by_cases hC : d.firstName.length < 2
      · simp [hC, Nat.not_le.mpr hC]
      · simp only [hC, if_false, if_neg]
        by_cases hD : d.lastName.length < 2
        · simp [hD, Nat.not_le.mpr hD]
        · simp only [hD, if_false, if_neg]
          by_cases hE : d.password.length < 8
          · simp [hE, Nat.not_le.mpr hE]
          · cases hF : passwordClassTest d.password <;>
              simp [hE, hF, Nat.not_lt.mp hB, Nat.not_lt.mp hC, Nat.not_lt.mp hD, Nat.not_lt.mp hE]

theorem validate_invalid_gate (s : StoreState) (d : RegData) (now : Nat) (rnd : String)
    (m : String) (h : validateUserData d = .invalid m) :
    registerUser s d now rnd = (.failure (.text m), s) := by
  unfold registerUser
  rw [h]

/-! ## Claim C4: validation order and rules -/

/-- Claim C4, amended: validateUserData checks the rules in the fixed spec
order, stops at the first violated rule and returns only that rule's message
(the cascade form), registration returns exactly the validation message when
validation fails, and validation passes exactly when all rules hold, where
the password character-class rule carries the source regex semantics: all
three classes must occur inside one line-terminator-free run of the password
rather than anywhere in it. -/
theorem validation_cascade_and_gate :
    (∀ d, validateUserData d = specValidationCascade d) ∧
    (∀ d, validateUserData d = .ok ↔
      (isValidEmail d.email = true ∧ 3 ≤ d.username.length ∧ 2 ≤ d.firstName.length ∧
       2 ≤ d.lastName.length ∧ 8 ≤ d.password.length ∧ passwordClassTest d.password = true)) ∧
    (∀ s d now rnd m, validateUserData d = .invalid m →
      registerUser s d now rnd = (.failure (.text m), s)) := by
  exact ⟨validate_eq_cascade, validate_ok_iff, validate_invalid_gate⟩

/-- Witness for claim C4: a concrete input failing the username rule is
rejected by registration with exactly that rule's message. -/
theorem validation_cascade_and_gate_witness :
    registerUser {} { regAnn with username := "ab" } 0 "r" =
      (.failure (.text "Username must be at least 3 characters long"), {}) := by
  exact validation_cascade_and_gate.2.2 {} _ 0 "r" _ (by decide)

/-- Claim C4, counterexample to the claim as stated: a password holding a
lowercase letter, an uppercase letter and a digit, but never on a single
line, satisfies every rule of the claim yet is rejected by validateUserData
and by registerUser with the password-rule message. -/
theorem validation_rule_mismatch_cex :
    validateUserData regNewlinePwd =
      .invalid "Password must contain at least one uppercase letter, one lowercase letter, and one number" ∧
    regNewlinePwd.password.data.any Char.isLower = true ∧
    regNewlinePwd.password.data.any Char.isUpper = true ∧
    regNewlinePwd.password.data.any Char.isDigit = true ∧
    8 ≤ regNewlinePwd.password.length ∧
    isValidEmail regNewlinePwd.email = true ∧
    3 ≤ regNewlinePwd.username.length ∧
    2 ≤ regNewlinePwd.firstName.length ∧
    2 ≤ regNewlinePwd.lastName.length ∧
    (registerUser {} regNewlinePwd 0 "r").1 =
      .failure (.text "Password must contain at least one uppercase letter, one lowercase letter, and one number") := by
  decide

/-! ## Claim C9: stored name lengths -/

/-- Claim C9, amended: every account persisted by a successful register call
stores username, firstName and lastName as the trimmed raw inputs, and the
minimum lengths (three and two and two) hold for the raw inputs as validated;
the stored trimmed values themselves can be shorter than the minima, because
validation measures the input before trimming. -/
theorem register_stores_trimmed_names (s : StoreState) (d : RegData)
    (now : Nat) (rnd : String) (u : SanitizedUser) (sess : Session) (s' : StoreState)
    (h : registerUser s d now rnd = (.success u sess, s'))
    (hfresh : ∀ v ∈ s.users, v.id ≠ s.nextUserId) :
    u.username = jsTrim d.username ∧ u.firstName = jsTrim d.firstName ∧
    u.lastName = jsTrim d.lastName ∧
    3 ≤ d.username.length ∧ 2 ≤ d.firstName.length ∧ 2 ≤ d.lastName.length ∧
    (getUserById s'.users s.nextUserId).map
        (fun v => (v.username, v.firstName, v.lastName)) =
      some (jsTrim d.username, jsTrim d.firstName, jsTrim d.lastName) := by
  obtain ⟨hv, _, _, hu, _, hs'⟩ := registerUser_success_spec s d now rnd u sess s' h
  obtain ⟨_, hlen1, hlen2, hlen3, _, _⟩ := (validate_ok_iff d).mp hv
  subst hu hs'
  refine ⟨rfl, rfl, rfl, hlen1, hlen2, hlen3, ?_⟩
  rw [(createSession_snd_fields _ _ _ _ _).1]
  show (getUserById (s.users ++ [(newUserOf d now).withId s.nextUserId]) s.nextUserId).map _ = _
  rw [getUserById_append_fresh _ _ _ hfresh]
  simp [NewUser.withId, newUserOf]

/-- Witness for claim C9: a concrete successful registration stores the
trimmed names for the generated id. -/
theorem register_stores_trimmed_names_witness :
    (registerUser {} regAnn 1000 "r1").1.user?.map (fun v => v.username) = some "firstuser" ∧
    3 ≤ regAnn.username.length := by
  have h := register_stores_trimmed_names {} regAnn 1000 "r1"
    (sanitizeNewUser (newUserOf regAnn 1000))
    (createSession (initializeUserProgress
      { StoreState.mk [] [] [] 1 none none none none with
        users := [] ++ [(newUserOf regAnn 1000).withId 1], nextUserId := 2 } 1 1000)
      1 regAnn.rememberMe 1000 "r1").1
    (createSession (initializeUserProgress
      { StoreState.mk [] [] [] 1 none none none none with
        users := [] ++ [(newUserOf regAnn 1000).withId 1], nextUserId := 2 } 1 1000)
      1 regAnn.rememberMe 1000 "r1").2
    rfl (by intro v hv; simp at hv)
  refine ⟨?_, h.2.2.2.1⟩
  have hreg : (registerUser {} regAnn 1000 "r1").1.user? =
      some (sanitizeNewUser (newUserOf regAnn 1000)) := rfl
  rw [hreg]
  simp only [Option.map_some']
  rw [h.1]
  decide

/-- Claim C9, counterexample to the claim as stated: the input username has
length three with a trailing space, validation passes, and the stored
username is the trimmed value of length two, below the claimed stored-field
minimum. -/
theorem register_untrimmed_length_cex :
    (registerUser {} regUntrimmed 5 "r").1.isSuccess = true ∧
    (getUserById (registerUser {} regUntrimmed 5 "r").2.users 1).map
        (fun v => v.username) = some "ab" ∧
    "ab".length < 3 ∧ regUntrimmed.username.length = 3 := by
  decide

/-! ## Claim C6: the returned user view -/

/-- Claim C6, amended: the user returned by a successful register call is the
sanitized pre-storage object: it carries every stored account field except
passwordHash with the same values the store received (normalized email,
trimmed names, role student, isActive true, defaults), but it does not carry
the system-assigned identifier, because the store injects the generated key
only into the stored clone; the stored account differs from the returned view
exactly by that identifier (and the absent passwordHash). -/
theorem register_returns_sanitized_preaccount (s : StoreState) (d : RegData)
    (now : Nat) (rnd : String) (u : SanitizedUser) (sess : Session) (s' : StoreState)
    (h : registerUser s d now rnd = (.success u sess, s'))
    (hfresh : ∀ v ∈ s.users, v.id ≠ s.nextUserId) :
    u = sanitizeNewUser (newUserOf d now) ∧
    u.id = none ∧
    sess.userId = s.nextUserId ∧
    (getUserById s'.users s.nextUserId).map sanitizeUser =
      some { u with id := some s.nextUserId } := by
  obtain ⟨_, _, _, hu, hsess, hs'⟩ := registerUser_success_spec s d now rnd u sess s' h
  subst hu hsess hs'
  refine ⟨rfl, rfl, rfl, ?_⟩
  rw [(createSession_snd_fields _ _ _ _ _).1]
  show (getUserById (s.users ++ [(newUserOf d now).withId s.nextUserId]) s.nextUserId).map _ = _
  rw [getUserById_append_fresh _ _ _ hfresh]
  simp [NewUser.withId]
  rfl

/-- Witness for claim C6: concrete instantiation at the example input. -/
theorem register_returns_sanitized_preaccount_witness :
    (registerUser {} regAnn 1000 "r1").1.user?.map (fun v => v.id) = some none := by
  have h := register_returns_sanitized_preaccount {} regAnn 1000 "r1"
    (sanitizeNewUser (newUserOf regAnn 1000))
    (createSession (initializeUserProgress
      { StoreState.mk [] [] [] 1 none none none none with
        users := [] ++ [(newUserOf regAnn 1000).withId 1], nextUserId := 2 } 1 1000)
      1 regAnn.rememberMe 1000 "r1").1
    (createSession (initializeUserProgress
      { StoreState.mk [] [] [] 1 none none none none with
        users := [] ++ [(newUserOf regAnn 1000).withId 1], nextUserId := 2 } 1 1000)
      1 regAnn.rememberMe 1000 "r1").2
    rfl (by intro v hv; simp at hv)
  have hreg : (registerUser {} regAnn 1000 "r1").1.user? =
      some (sanitizeNewUser (newUserOf regAnn 1000)) := rfl
  rw [hreg]
  simp only [Option.map_some']
  rw [h.2.1]

/-- Claim C6, counterexample to the claim as stated: at the example input the
persisted account receives identifier one, but the returned user carries no
identifier at all, so the returned view is not the persisted account with
only passwordHash removed. -/
theorem register_returned_user_lacks_id_cex :
    (registerUser {} regAnn 1000 "r1").1.user?.map (fun v => v.id) = some none ∧
    (getUserById (registerUser {} regAnn 1000 "r1").2.users 1).map (fun v => v.id) = some 1 := by
  decide

/-! ## Claim C1: duplicate registration -/

/-- Claim C1, amended: with valid input, a second register call whose raw
email string already appears verbatim as a stored (normalized) account email
fails with the DuplicateAccount message; but when the second email merely
normalizes to a stored email without being byte-identical (for example a
case variant), the raw-email duplicate check misses, and the call instead
fails with the store's unique-index ConstraintError carrying a different,
browser-produced message; an email with surrounding whitespace never reaches
the duplicate check because the format rule rejects it. In all cases the
state is left unchanged by the failing call. -/
theorem register_duplicate_behavior :
    (∀ s d now rnd u, validateUserData d = .ok →
      getUserByEmail s.users d.email = some u →
      registerUser s d now rnd =
        (.failure (.text "An account with this email already exists"), s)) ∧
    (∀ s d now rnd, validateUserData d = .ok →
      getUserByEmail s.users d.email = none →
      (s.users.any fun v => v.email == (newUserOf d now).email ||
        v.username == (newUserOf d now).username) = true →
      registerUser s d now rnd = (.failure .dbConstraint, s)) := by
  constructor
  · intro s d now rnd u hv hdup
    unfold registerUser
    rw [hv, hdup]
  · intro s d now rnd hv hdup hany
    unfold registerUser
    rw [hv, hdup]
    unfold storeUserAdd
    simp [hany]

/-- Witness for claim C1: after registering the example account, a second
registration with the identical already-normalized email fails with the
DuplicateAccount message and leaves the state unchanged. -/
theorem register_duplicate_behavior_witness :
    registerUser (registerUser {} regAnn 1000 "r1").2
        { regAnn with username := "fifthuser" } 5000 "r9" =
      (.failure (.text "An account with this email already exists"),
       (registerUser {} regAnn 1000 "r1").2) := by
  exact register_duplicate_behavior.1 (registerUser {} regAnn 1000 "r1").2
    { regAnn with username := "fifthuser" } 5000 "r9"
    ((newUserOf regAnn 1000).withId 1) (by decide) rfl

/-- Claim C1, counterexample to the claim as stated: the first registration
succeeds, but a second one whose email differs only in letter case is not
rejected with the DuplicateAccount message; it fails with the store's
ConstraintError instead, and a second one whose email has surrounding
whitespace fails with the email-format validation message. -/
theorem register_duplicate_message_cex :
    (registerUser {} regAnn 1000 "r1").1.isSuccess = true ∧
    (registerUser (registerUser {} regAnn 1000 "r1").2 regBobCase 2000 "r2").1 =
      .failure .dbConstraint ∧
    (registerUser (registerUser {} regAnn 1000 "r1").2 regBobCase 2000 "r2").1 ≠
      .failure (.text "An account with this email already exists") ∧
    (registerUser (registerUser {} regAnn 1000 "r1").2 regCalSpace 3000 "r3").1 =
      .failure (.text "Please enter a valid email address") := by
  decide

/-! ## Session lookup and logout helpers -/

theorem logout_snd_some (s : StoreState) (tok : String) (h : tokenOf s = some tok) :
    (logout s).2 =
      { s with sessions := deleteSession s.sessions tok, localSessionId := none,
               sessionSessionId := none, localUserData := none, currentUser := none } := by
  unfold logout
  rw [h]

theorem getUserById_some_id (l : List User) (k : Nat) (u : User)
    (h : getUserById l k = some u) : u.id = k := by
  unfold getUserById at h
  have := List.find?_some h
  simpa using this

theorem authenticateUser_success_spec (s : StoreState) (e pw : String) (rm : Bool)
    (now : Nat) (rnd : String) (u : SanitizedUser) (sess : Session) (s' : StoreState)
    (h : authenticateUser s e pw rm now rnd = (.success u sess, s')) :
    ∃ user s1, getUserByEmail s.users (jsTrim (jsToLower e)) = some user ∧
      verifyPassword pw user.passwordHash = true ∧ user.isActive = true ∧
      updateLastLogin s user.id now = .ok s1 ∧
      u = sanitizeUser user ∧ sess = (createSession s1 user.id rm now rnd).1 ∧
      s' = { (createSession s1 user.id rm now rnd).2 with
               currentUser := some (.full user) } := by
  unfold authenticateUser at h
  split at h
  · simp at h
  next user huser =>
    split at h
    next hvp => simp at h
    next hvp =>
      split at h
      next hact => simp at h
      next hact =>
        split at h
        · simp at h
        next s1 hul =>
          simp only [Prod.mk.injEq, OpResult.success.injEq] at h
          refine ⟨user, s1, huser, ?_, ?_, hul, h.1.1.symm, h.1.2.symm, h.2.symm⟩
          · have := hvp
            simp only [Bool.not_eq_true] at this
            simpa using this
          · have := hact
            simp only [Bool.not_eq_true] at this
            simpa using this

theorem updateLastLogin_users_lookup (s : StoreState) (uid now : Nat) (s1 : StoreState)
    (k : Nat) (h : updateLastLogin s uid now = .ok s1) (hk : k ≠ uid) :
    getUserById s1.users k = getUserById s.users k := by
  unfold updateLastLogin at h
  split at h
  · cases h; rfl
  next u' hu' =>
    unfold updateUserPut at h
    split at h
    · cases h
    next users1 hput =>
      cases h
      split at hput
      · cases hput
      · cases hput
        have hid : u'.id = uid := getUserById_some_id s.users uid u' hu'
        show getUserById ({ u' with lastLoginAt := some now } ::
          s.users.filter fun v => v.id != u'.id) k = _
        exact getUserById_cons_filter_ne s.users { u' with lastLoginAt := some now } k
          (fun hcon => hk (hcon.symm.trans hid))

/-! ## Claim C3: expired sessions are purged -/

/-- Claim C3: whenever the stored token resolves to no session or to an
expired one, getCurrentUser answers absent and, as a side effect, removes
that session row and clears both token slots, the cached snapshot and the
current-user pointer, whatever users the store holds (in particular when the
referenced account exists and is active); and whenever getCurrentUser does
answer an account, the stored token resolved to an unexpired session owning
that account, so no expired session's account is ever returned. -/
theorem getCurrentUser_expired_purges :
    (∀ s now tok, tokenOf s = some tok →
      (∀ sess, getSession s.sessions tok = some sess → isSessionExpired sess now = true) →
      getCurrentUser s now =
        (none, { s with
                 sessions := deleteSession s.sessions tok,
                 localSessionId := none, sessionSessionId := none,
                 localUserData := none, currentUser := none })) ∧
    (∀ s now u, (getCurrentUser s now).1 = some u →
      ∃ tok sess user, tokenOf s = some tok ∧ getSession s.sessions tok = some sess ∧
        isSessionExpired sess now = false ∧
        getUserById s.users sess.userId = some user ∧ u = sanitizeUser user) := by
  constructor
  · intro s now tok htok hexp
    unfold getCurrentUser
    simp only [htok]
    cases hges : getSession s.sessions tok with
    | none =>
      simp only [hges]
      rw [logout_snd_some s tok htok]
    | some sess =>
      simp only [hges]
      rw [hexp sess hges, logout_snd_some s tok htok]
      rfl
  · intro s now u h
    unfold getCurrentUser at h
    split at h
    · simp at h
    next tok htok =>
      split at h
      · simp at h
      next sess hges =>
        split at h
        next hexp => simp at h
        next hexp =>
          split at h
          next user huser =>
            simp only [Option.some.injEq] at h
            exact ⟨tok, sess, user, htok, hges, by simpa using hexp, huser, h.symm⟩
          next huser => simp at h

/-- Witness for claim C3: in the concrete state whose durable slot holds the
token of an expired session while its account is present and active,
getCurrentUser answers absent and purges the session row and both slots. -/
theorem getCurrentUser_expired_purges_witness :
    getCurrentUser sExpired 100 =
      (none, { sExpired with
               sessions := deleteSession sExpired.sessions "tokOld",
               localSessionId := none, sessionSessionId := none,
               localUserData := none, currentUser := none }) ∧
    userA.isActive = true ∧ getUserById sExpired.users sessionOld.userId = some userA := by
  refine ⟨?_, rfl, rfl⟩
  refine getCurrentUser_expired_purges.1 sExpired 100 "tokOld" rfl ?_
  intro sess hs
  rw [show getSession sExpired.sessions "tokOld" = some sessionOld from rfl] at hs
  cases hs
  decide

/-! ## Claim C10: a durable token shadows an ephemeral login -/

/-- Claim C10: creating a session without rememberMe writes the token only to
the ephemeral slot, and getCurrentUser reads the durable slot first; hence
when an unexpired durable session of another account is still stored, an
ephemeral authentication succeeds but getCurrentUser afterwards resolves the
old durable session's account, not the newly authenticated one. -/
theorem durable_token_shadows_ephemeral_login (s : StoreState) (e pw : String)
    (now rnd_now : Nat) (rnd : String) (tokOld : String) (sessOld : Session)
    (uOld : User) (uAuth : SanitizedUser) (sessNew : Session) (s' : StoreState)
    (htok : s.localSessionId = some tokOld)
    (htokne : tokOld ≠ "")
    (hsess : getSession s.sessions tokOld = some sessOld)
    (hexp : isSessionExpired sessOld rnd_now = false)
    (huser : getUserById s.users sessOld.userId = some uOld)
    (hauth : authenticateUser s e pw false now rnd = (.success uAuth sessNew, s'))
    (hne : uAuth.id ≠ some sessOld.userId)
    (hfresh : generateSessionId now rnd ≠ tokOld) :
    (getCurrentUser s' rnd_now).1 = some (sanitizeUser uOld) ∧
    (getCurrentUser s' rnd_now).1 ≠ some uAuth := by
  obtain ⟨user, s1, hue, hvp, hact, hul, huA, hsN, hs'el⟩ :=
    authenticateUser_success_spec s e pw false now rnd uAuth sessNew s' hauth
  have hs1spec := updateLastLogin_ok_spec s user.id now s1 hul
  have huidne : sessOld.userId ≠ user.id := by
    intro hcon
    exact hne (by rw [huA]; exact congrArg some hcon.symm)
  have hloc : s'.localSessionId = some tokOld := by
    rw [hs'el]
    show (createSession s1 user.id false now rnd).2.localSessionId = some tokOld
    rw [createSession_snd_false]
    show s1.localSessionId = some tokOld
    rw [hs1spec]
    exact htok
  have hbeq : (tokOld == "") = false := beq_eq_false_iff_ne.mpr htokne
  have horf : orFalsy (some tokOld) = some tokOld := by
    show (if (tokOld == "") = true then none else some tokOld) = some tokOld
    rw [hbeq]
    rfl
  have htokOf : tokenOf s' = some tokOld := by
    unfold tokenOf
    rw [hloc, horf]
  have hsess' : getSession s'.sessions tokOld = some sessOld := by
    rw [hs'el]
    show getSession (createSession s1 user.id false now rnd).2.sessions tokOld = some sessOld
    rw [(createSession_snd_fields _ _ _ _ _).2.2.2.2.2]
    rw [getSession_putSession_ne]
    · rw [hs1spec]
      exact hsess
    · rw [createSession_fst]
      exact fun hcon => hfresh hcon.symm
  have huser' : getUserById s'.users sessOld.userId = some uOld := by
    rw [hs'el]
    show getUserById (createSession s1 user.id false now rnd).2.users sessOld.userId = some uOld
    rw [(createSession_snd_fields _ _ _ _ _).1]
    rw [updateLastLogin_users_lookup s user.id now s1 sessOld.userId hul huidne]
    exact huser
  have hres : (getCurrentUser s' rnd_now).1 = some (sanitizeUser uOld) := by
    unfold getCurrentUser
    simp only [htokOf, hsess', hexp, huser']
    rfl
  refine ⟨hres, ?_⟩
  rw [hres]
  intro hcon
  apply hne
  have heq : sanitizeUser uOld = uAuth := Option.some.inj hcon
  rw [← heq]
  exact congrArg some (getUserById_some_id s.users sessOld.userId uOld huser)

/-- Witness for claim C10: in the concrete two-account state, an ephemeral
authentication of the second account is followed by getCurrentUser resolving
the first account through the still-present durable token. -/
theorem durable_token_shadows_ephemeral_login_witness :
    (getCurrentUser sShadowAuthed 200).1 = some (sanitizeUser userA) ∧
    (getCurrentUser sShadowAuthed 200).1 ≠ some (sanitizeUser userB) := by
  refine durable_token_shadows_ephemeral_login sShadow "b@x.com" "Bbbb2222" 100 200 "rr"
    "tokOld" sessionDurable userA (sanitizeUser userB)
    (createSession sShadowLL 2 false 100 "rr").1 sShadowAuthed
    rfl (by decide) rfl (by decide) rfl ?_ (by decide) (by decide)
  show authenticateUser sShadow "b@x.com" "Bbbb2222" false 100 "rr" =
    (.success (sanitizeUser userB) (createSession sShadowLL 2 false 100 "rr").1, sShadowAuthed)
  rfl

/-! ## Claim C7: password verification -/

theorem compressBlock_bounded (st : Hash8) (blk : List Nat) :
    Hash8Bounded (compressBlock st blk) := by
  refine ⟨?_, ?_, ?_, ?_, ?_, ?_, ?_, ?_⟩ <;> exact Nat.mod_lt _ (by omega)

theorem foldl_compress_bounded : ∀ (l : List (List Nat)) (st : Hash8),
    Hash8Bounded st → Hash8Bounded (l.foldl compressBlock st)
  | [], _, h => h
  | b :: bs, st, _ => foldl_compress_bounded bs (compressBlock st b) (compressBlock_bounded st b)

theorem sha256Core_bounded (msg : List Nat) : Hash8Bounded (sha256Core msg) :=
  foldl_compress_bounded (chunks64 (padMessage msg)) sha256H0
    ⟨by decide, by decide, by decide, by decide, by decide, by decide, by decide, by decide⟩

theorem wordsToNat_lt (h : Hash8) (hb : Hash8Bounded h) : wordsToNat h < 2 ^ 256 := by
  obtain ⟨b0, b1, b2, b3, b4, b5, b6, b7⟩ := hb
  have hpow : (2 : Nat) ^ 256 =
    115792089237316195423570985008687907853269984665640564039457584007913129639936 := by
    norm_num
  rw [hpow]
  unfold wordsToNat
  omega

theorem wordsToNat_inj (x y : Hash8) (hx : Hash8Bounded x) (hy : Hash8Bounded y)
    (h : wordsToNat x = wordsToNat y) : x = y := by
  obtain ⟨x0, x1, x2, x3, x4, x5, x6, x7⟩ := x
  obtain ⟨y0, y1, y2, y3, y4, y5, y6, y7⟩ := y
  obtain ⟨a0, a1, a2, a3, a4, a5, a6, a7⟩ := hx
  obtain ⟨c0, c1, c2, c3, c4, c5, c6, c7⟩ := hy
  unfold wordsToNat at h
  simp only [Hash8.mk.injEq]
  simp only at h a0 a1 a2 a3 a4 a5 a6 a7 c0 c1 c2 c3 c4 c5 c6 c7
  refine ⟨?_, ?_, ?_, ?_, ?_, ?_, ?_, ?_⟩ <;> omega

theorem hashPassword_collision : ∃ p q : String, p ≠ q ∧ hashPassword p = hashPassword q := by
  have hbound : ∀ n : Nat, wordsToNat (saltedCore (aStr n)) < 2 ^ 256 :=
    fun n => wordsToNat_lt _ (sha256Core_bounded _)
  obtain ⟨m, n, hmn, hfeq⟩ := Finite.exists_ne_map_eq_of_infinite
    (fun n : Nat => (⟨wordsToNat (saltedCore (aStr n)), hbound n⟩ : Fin (2 ^ 256)))
  have hcore : saltedCore (aStr m) = saltedCore (aStr n) :=
    wordsToNat_inj _ _ (sha256Core_bounded _) (sha256Core_bounded _)
      (congrArg Fin.val hfeq)
  refine ⟨aStr m, aStr n, ?_, ?_⟩
  · intro hcon
    apply hmn
    have hlen := congrArg (fun s : String => s.data.length) hcon
    simpa [aStr] using hlen
  · exact congrArg (fun h => String.mk ((digestBytes h).flatMap byteToHex)) hcore

/-- Claim C7, amended: verification always succeeds for the exact original
password, since verifyPassword recomputes the salted SHA-256 hex digest
deterministically and compares it; the converse half of the claim (that every
distinct password fails verification) is dropped, because the digest space is
finite while passwords are not, so colliding distinct passwords exist. -/
theorem verify_exact_password (p : String) : verifyPassword p (hashPassword p) = true :=
  verify_hash_self p

/-- Claim C7, counterexample to the claim as stated, by proving its negation:
there exist two distinct passwords such that verification of the second
succeeds against the hash of the first, because hashPassword maps the
infinitely many passwords into the finitely many 256-bit digests, so it is
not injective; verification is hash comparison, so it accepts both. -/
theorem verify_not_sound_cex :
    ∃ p q : String, p ≠ q ∧ verifyPassword q (hashPassword p) = true := by
  obtain ⟨p, q, hpq, hcol⟩ := hashPassword_collision
  refine ⟨p, q, hpq, ?_⟩
  unfold verifyPassword
  rw [hcol]
  exact beq_self_eq_true _

end NclexUserMgmt
